import Mathlib

/-!
Shallow embedding of main.py, a three-stage daily-newsletter pipeline
(fetch news via HTTP, summarize each article via a language model,
send one digest email over SMTP).

External effects are modelled as inputs: the HTTP response of the news
search is a value of `HttpResult`; scraping and the language-model call
are function fields of `Env`.  Python exceptions are modelled with
`Except PyExc`; an exception that a `try`/`except` clause in the source
catches is turned into the handler result at the same place the source
catches it, and any other exception propagates through `Except`.
-/

namespace NewsDigest

/-- Python exceptions that the embedded code can raise uncaught. -/
inductive PyExc where
  | keyError (key : String)
  | typeError (msg : String)
  | attributeError (msg : String)
deriving DecidableEq, Repr

/-- JSON values, as produced by response.json() in fetch_news. -/
inductive Json where
  | null
  | bool (b : Bool)
  | num (n : Int)
  | str (s : String)
  | arr (elems : List Json)
  | obj (fields : List (String × Json))

/-- Key lookup in a parsed JSON object (Python dict lookup; parsed
objects are assumed key-unique, so first match suffices). -/
def lookupField : List (String × Json) → String → Option Json
  | [], _ => none
  | (k, v) :: rest, key => if k = key then some v else lookupField rest key

/-- Python truthiness (`if not x:`) on the modelled JSON values. -/
def Json.truthy : Json → Bool
  | .null => false
  | .bool b => b
  | .num n => n != 0
  | .str s => s ≠ ""
  | .arr elems => !elems.isEmpty
  | .obj fields => !fields.isEmpty

/-- Python `x.get(key, dflt)`: defined on dicts, an AttributeError on
every other value. -/
def Json.get (j : Json) (key : String) (dflt : Json) : Except PyExc Json :=
  match j with
  | .obj fields => .ok ((lookupField fields key).getD dflt)
  | _ => .error (.attributeError "object has no attribute get")

/-- Python subscript `x[key]` with a string key: KeyError on a dict
missing the key, TypeError on non-dict values. -/
def Json.subscript (j : Json) (key : String) : Except PyExc Json :=
  match j with
  | .obj fields =>
    match lookupField fields key with
    | some v => .ok v
    | none => .error (.keyError key)
  | .arr _ => .error (.typeError "list indices must be integers")
  | .str _ => .error (.typeError "string indices must be integers")
  | _ => .error (.typeError "object is not subscriptable")

/-- Python iteration `for x in v`: lists yield elements, strings yield
one-character strings, dicts yield their keys, other values raise
TypeError. -/
def pyIter : Json → Except PyExc (List Json)
  | .arr elems => .ok elems
  | .str s => .ok (s.toList.map fun c => .str (String.singleton c))
  | .obj fields => .ok (fields.map fun kv => .str kv.1)
  | _ => .error (.typeError "object is not iterable")

/-- Python `str()` as applied by f-string interpolation.  In every run
the pipeline theorems touch, the interpolated values are strings, on
which `str` is the identity; the repr of containers is not needed by
any theorem and is elided. -/
def pyStr : Json → String
  | .null => "None"
  | .bool true => "True"
  | .bool false => "False"
  | .num n => toString n
  | .str s => s
  | .arr _ => "[...]"
  | .obj _ => "\x7b...\x7d"

/-- Result of the single requests.get call in fetch_news: either the
transport layer raised, or a response with a status code and a body
arrived. -/
inductive Body where
  | notJson (raw : String)
  | json (j : Json)

/-- Outcome of the HTTP interaction of fetch_news. -/
inductive HttpResult where
  | transportError (msg : String)
  | response (status : Nat) (body : Body)

/-- The constant NEWS_TOPIC of main.py. -/
def NEWS_TOPIC : String := "artificial intelligence"

/-- The constant MAX_ARTICLES of main.py. -/
def MAX_ARTICLES : Nat := 5

/-- The request URL built by fetch_news (lines 36 to 42). -/
def newsUrl (topic : String) (max_articles : Nat) (apikey : String) : String :=
  "https://gnews.io/api/v4/search?" ++
    "q=" ++ topic ++ "&" ++
    "max=" ++ toString max_articles ++ "&" ++
    "lang=en&" ++
    "apikey=" ++ apikey

/-- fetch_news (lines 30 to 51).  The first component is the request
URL it issues; the second is what the function does with the given
response: raise_for_status turns client and server error statuses into
an HTTPError, which — like transport errors and JSON decode errors —
is a RequestException, caught by the except clause that returns [].
A body that is valid JSON but not an object reaches data.get, which
raises an AttributeError that the except clause does not catch. -/
def fetch_news (topic : String) (max_articles : Nat) (apikey : String)
    (resp : HttpResult) : String × Except PyExc Json :=
  let url := newsUrl topic max_articles apikey
  (url,
    match resp with
    | .transportError _ => .ok (.arr [])
    | .response status body =>
      if 400 ≤ status ∧ status < 600 then .ok (.arr [])
      else
        match body with
        | .notJson _ => .ok (.arr [])
        | .json data => data.get "articles" (.arr []))

/-- The external world of the Summarizer plus the startup
configuration: scrape models Article download plus parse (ok gives the
extracted text, error any exception there); clientPresent models the
truthiness of the module-level OpenAI client; llm models the chat
completion call (ok gives choices[0].message.content, which Python may
report as None, hence Option; error any exception during the call). -/
structure Env where
  scrape : String → Except String String
  clientPresent : Bool
  llm : String → Except String (Option String)
  gnewsApiKey : String

/-- summarize_article (lines 54 to 89): scrape, length-validate,
summarize; the surrounding try catches every exception and returns
None.  The second component records whether the model call was
invoked. -/
def summarize_article (env : Env) (article_url : String) : Option String × Bool :=
  match env.scrape article_url with
  | .error _ => (none, false)
  | .ok article_text =>
    if article_text.length < 250 then (none, false)
    else if env.clientPresent = false then (none, false)
    else
      match env.llm article_text with
      | .error _ => (none, true)
      | .ok content => (content, true)

/-- The record accumulated by main and consumed by send_email. -/
structure DigestEntry where
  title : String
  summary : String
  url : String
deriving DecidableEq, Repr

/-- One iteration of the plain-text body loop of send_email
(line 107; the leading three characters reproduce the bytes committed
in the source file). -/
def textEntryLine (item : DigestEntry) : String :=
  "â€¢ " ++ item.title ++ "\n" ++ item.summary ++ "\nRead more: " ++ item.url ++ "\n\n"

/-- A single quote character, used unescaped in the HTML template. -/
def singleQuote : String := String.singleton (Char.ofNat 39)

/-- One iteration of the HTML body loop of send_email (lines 108 to
114): title, summary and url are spliced in verbatim, with no HTML
escaping applied. -/
def htmlEntryLine (item : DigestEntry) : String :=
  "<li>" ++
    "<strong>" ++ item.title ++ "</strong><br>" ++
    "<p>" ++ item.summary ++ "</p>" ++
    "<a href=" ++ singleQuote ++ item.url ++ singleQuote ++ ">Read more</a>" ++
  "</li><br>"

/-- The message send_email constructs.  The From and To headers and the
SMTP session (whose exceptions send_email catches, lines 127 to 137)
carry no information any theorem needs and are not modelled. -/
structure EmailMsg where
  subject : String
  textBody : String
  htmlBody : String
deriving DecidableEq, Repr

/-- send_email (lines 92 to 124): subject with the entry count, then
the two bodies accumulated with += over the entries in order. -/
def send_email (summaries_list : List DigestEntry) : EmailMsg :=
  let subject := "Your Daily AI News Update (" ++ toString summaries_list.length ++ " stories)"
  let text_body :=
    summaries_list.foldl (fun acc item => acc ++ textEntryLine item)
      "Here is your daily news summary:\n\n"
  let html_body :=
    summaries_list.foldl (fun acc item => acc ++ htmlEntryLine item)
      "<html><body><h2>Here is your daily news summary:</h2><ul>"
  { subject := subject
    textBody := text_body
    htmlBody := html_body ++ "</ul></body></html>" }

/-- What one loop iteration of main (lines 153 to 166) contributes to
summaries_list: the entry when title and url are readable and the
summary is truthy, nothing otherwise. -/
def entryOf (env : Env) (a : Json) : Option DigestEntry :=
  match a.subscript "title", a.subscript "url" with
  | .ok t, .ok u =>
    match (summarize_article env (pyStr u)).1 with
    | some s => if s.isEmpty then none else some ⟨pyStr t, s, pyStr u⟩
    | none => none
  | _, _ => none

/-- The url string an article contributes to the summarize call, when
its url field is readable. -/
def urlOf (a : Json) : String :=
  match a.subscript "url" with
  | .ok u => pyStr u
  | .error _ => ""

/-- The summarization loop of main (lines 153 to 166).  First
component: the accumulated summaries_list, or the uncaught exception
(KeyError or TypeError from the subscripts).  Second component: the
urls passed to summarize_article before any crash, in order. -/
def processArticles (env : Env) : List Json → Except PyExc (List DigestEntry) × List String
  | [] => (.ok [], [])
  | a :: rest =>
    match a.subscript "title", a.subscript "url" with
    | .ok t, .ok u =>
      let article_url := pyStr u
      let summary := (summarize_article env article_url).1
      let result := processArticles env rest
      (match result.1 with
       | .error e => .error e
       | .ok entries =>
         match summary with
         | some s =>
           if s.isEmpty then .ok entries
           else .ok (⟨pyStr t, s, article_url⟩ :: entries)
         | none => .ok entries,
       article_url :: result.2)
    | .error e, _ => (.error e, [])
    | .ok _, .error e => (.error e, [])

/-- Observable invocation record of one run: the urls handed to the
Summarizer and the entry lists handed to the Sender. -/
structure Trace where
  summarizeCalls : List String
  sendCalls : List (List DigestEntry)
deriving DecidableEq, Repr

/-- main (lines 140 to 174): fetch, short-circuit on no articles,
summarize each article collecting successes, short-circuit on no
summaries, send once.  First component .ok means the process exits
normally; .error is an uncaught exception ending the run abnormally. -/
def main (env : Env) (resp : HttpResult) : Except PyExc Unit × Trace :=
  match (fetch_news NEWS_TOPIC MAX_ARTICLES env.gnewsApiKey resp).2 with
  | .error e => (.error e, ⟨[], []⟩)
  | .ok articles =>
    if articles.truthy = false then (.ok (), ⟨[], []⟩)
    else
      match pyIter articles with
      | .error e => (.error e, ⟨[], []⟩)
      | .ok articleList =>
        let result := processArticles env articleList
        match result.1 with
        | .error e => (.error e, ⟨result.2, []⟩)
        | .ok summaries_list =>
          if summaries_list.isEmpty then (.ok (), ⟨result.2, []⟩)
          else
            let _msg := send_email summaries_list
            (.ok (), ⟨result.2, [summaries_list]⟩)

/-- Whether an article value survives the subscript accesses of the
main loop: a JSON object with both a title and a url field. -/
def wellFormedArticle (a : Json) : Bool :=
  (match a.subscript "title" with | .ok _ => true | .error _ => false) &&
  (match a.subscript "url" with | .ok _ => true | .error _ => false)

/-- Provider responses on which no uncaught exception is possible:
recoverable fetch failures, or a JSON object body whose articles
value is either absent, a falsy value, or an array of well-formed
article objects. -/
def respOk : HttpResult → Bool
  | .transportError _ => true
  | .response status body =>
    if 400 ≤ status ∧ status < 600 then true
    else
      match body with
      | .notJson _ => true
      | .json (.obj fields) =>
        match lookupField fields "articles" with
        | none => true
        | some (.arr elems) => elems.all wellFormedArticle
        | some v => !v.truthy
      | .json _ => false

/-- Fetch failures the except clause of fetch_news recovers from:
transport errors, HTTPError statuses (400 to 599), and bodies that do
not parse as JSON. -/
def recoverableFetchFailure : HttpResult → Bool
  | .transportError _ => true
  | .response status body =>
    if 400 ≤ status ∧ status < 600 then true
    else
      match body with
      | .notJson _ => true
      | .json _ => false

/-- Concatenation of the per-entry rendering over a list, in order. -/
def concatMap (f : DigestEntry → String) : List DigestEntry → String
  | [] => ""
  | e :: rest => f e ++ concatMap f rest

/-! Concrete fixtures used by counterexamples and witnesses. -/

/-- An environment whose scrape and model calls fail and whose client is
absent. -/
def envC : Env := ⟨fun _ => .error "net down", false, fun _ => .error "no client", "k"⟩

/-- A 250 character article body: the minimum the validator accepts. -/
def longText : String := String.mk (List.replicate 250 (Char.ofNat 97))

/-- An environment where every scrape yields longText and the model
answers S. -/
def envS : Env := ⟨fun _ => .ok longText, true, fun _ => .ok (some "S"), "k"⟩

/-- An environment whose scrape yields a sub-threshold text. -/
def envShort : Env := ⟨fun _ => .ok "too short", true, fun _ => .ok (some "S"), "k"⟩

/-- A well-formed article stub. -/
def artS : Json := .obj [("title", .str "A"), ("url", .str "u")]

/-- The digest entry the pipeline builds from artS under envS. -/
def entS : DigestEntry := ⟨"A", "S", "u"⟩

/-- A successful provider response carrying artS. -/
def respS : HttpResult := .response 200 (.json (.obj [("articles", .arr [artS])]))

/-- A successful provider response whose single article object lacks the
title field. -/
def respNoTitle : HttpResult :=
  .response 200 (.json (.obj [("articles", .arr [.obj [("url", .str "u")]])]))

/-- An entry whose fields carry raw HTML markup. -/
def entX : DigestEntry := ⟨"<script>alert(1)</script>", "<i>inline</i>", "https://x/?a=1&b=2"⟩

/-! Helper lemmas. -/

set_option maxRecDepth 4000 in
theorem longText_length : longText.length = 250 := by
  decide

theorem foldl_append_eq (f : DigestEntry → String) (l : List DigestEntry) (acc : String) :
    l.foldl (fun a e => a ++ f e) acc = acc ++ concatMap f l := by
  induction l generalizing acc with
  | nil => simp [concatMap, String.append_empty]
  | cons e rest ih => simp [concatMap, List.foldl, ih, String.append_assoc]

theorem concatMap_append (f : DigestEntry → String) (l1 l2 : List DigestEntry) :
    concatMap f (l1 ++ l2) = concatMap f l1 ++ concatMap f l2 := by
  induction l1 with
  | nil => simp [concatMap]
  | cons e rest ih => simp [concatMap, ih, String.append_assoc]

theorem send_email_textBody (entries : List DigestEntry) :
    (send_email entries).textBody =
      "Here is your daily news summary:\n\n" ++ concatMap textEntryLine entries := by
  simp [send_email, foldl_append_eq]

theorem send_email_htmlBody (entries : List DigestEntry) :
    (send_email entries).htmlBody =
      "<html><body><h2>Here is your daily news summary:</h2><ul>" ++
        concatMap htmlEntryLine entries ++ "</ul></body></html>" := by
  simp [send_email, foldl_append_eq, String.append_assoc]

theorem summarize_eq_some (env : Env) (u s : String)
    (h : (summarize_article env u).1 = some s) :
    ∃ t, env.scrape u = .ok t ∧ 250 ≤ t.length ∧ env.clientPresent = true ∧
      env.llm t = .ok (some s) := by
  unfold summarize_article at h
  cases hs : env.scrape u with
  | error e => rw [hs] at h; simp at h
  | ok t =>
    rw [hs] at h
    by_cases hl : t.length < 250
    · simp [hl] at h
    · by_cases hc : env.clientPresent = false
      · simp [hl, hc] at h
      · cases hm : env.llm t with
        | error e => simp [hl, hc, hm] at h
        | ok content =>
          simp [hl, hc, hm] at h
          refine ⟨t, rfl, by omega, ?_, by rw [hm, h]⟩
          revert hc
          cases env.clientPresent <;> simp

theorem summarize_noclient (env : Env) (h : env.clientPresent = false) (u : String) :
    summarize_article env u = (none, false) := by
  unfold summarize_article
  cases hs : env.scrape u with
  | error e => rfl
  | ok t =>
    by_cases hl : t.length < 250
    · simp [hl]
    · simp [hl, h]

theorem entryOf_noclient (env : Env) (h : env.clientPresent = false) (a : Json) :
    entryOf env a = none := by
  unfold entryOf
  cases ht : a.subscript "title" with
  | error e => simp
  | ok t =>
    cases hu : a.subscript "url" with
    | error e => simp
    | ok u => simp [summarize_noclient env h]

theorem entryOf_some (env : Env) (a : Json) (e : DigestEntry)
    (h : entryOf env a = some e) :
    e.summary.isEmpty = false ∧ (summarize_article env e.url).1 = some e.summary := by
  unfold entryOf at h
  cases ht : a.subscript "title" with
  | error e1 => rw [ht] at h; simp at h
  | ok t =>
    cases hu : a.subscript "url" with
    | error e1 => rw [ht, hu] at h; simp at h
    | ok u =>
      rw [ht, hu] at h
      simp only [] at h
      cases hsum : (summarize_article env (pyStr u)).1 with
      | none => rw [hsum] at h; simp at h
      | some s =>
        rw [hsum] at h
        simp only [] at h
        by_cases hse : s.isEmpty
        · simp [hse] at h
        · simp [hse] at h
          subst h
          exact ⟨by simpa using hse, by simpa using hsum⟩

theorem entryOf_eq (env : Env) (a : Json) (t u : Json)
    (ht : a.subscript "title" = .ok t) (hu : a.subscript "url" = .ok u) :
    entryOf env a =
      match (summarize_article env (pyStr u)).1 with
      | some s => if s.isEmpty then none else some ⟨pyStr t, s, pyStr u⟩
      | none => none := by
  unfold entryOf
  rw [ht, hu]

theorem wf_subscripts (a : Json) (h : wellFormedArticle a = true) :
    (∃ t, a.subscript "title" = .ok t) ∧ ∃ u, a.subscript "url" = .ok u := by
  unfold wellFormedArticle at h
  cases ht : a.subscript "title" with
  | error e => rw [ht] at h; simp at h
  | ok t =>
    cases hu : a.subscript "url" with
    | error e => rw [ht, hu] at h; simp at h
    | ok u => exact ⟨⟨t, rfl⟩, ⟨u, rfl⟩⟩

theorem processArticles_wf (env : Env) (l : List Json)
    (h : ∀ a ∈ l, wellFormedArticle a = true) :
    processArticles env l = (.ok (l.filterMap (entryOf env)), l.map urlOf) := by
  induction l with
  | nil => rfl
  | cons a rest ih =>
    obtain ⟨⟨t, ht⟩, ⟨u, hu⟩⟩ := wf_subscripts a (h a (by simp))
    have ihr := ih (fun x hx => h x (List.mem_cons_of_mem a hx))
    simp only [processArticles, ht, hu, ihr, List.filterMap_cons, List.map_cons]
    unfold entryOf urlOf
    rw [ht, hu]
    cases hsum : (summarize_article env (pyStr u)).1 with
    | none => simp [hsum]
    | some s =>
      by_cases hse : s.isEmpty
      · simp [hsum, hse]
      · simp [hsum, hse]

theorem processArticles_ok (env : Env) (l : List Json) (es : List DigestEntry)
    (h : (processArticles env l).1 = .ok es) :
    es = l.filterMap (entryOf env) ∧ (processArticles env l).2 = l.map urlOf := by
  induction l generalizing es with
  | nil =>
    constructor <;> simp_all [processArticles]
  | cons a rest ih =>
    unfold processArticles at h ⊢
    cases ht : a.subscript "title" with
    | error e => rw [ht] at h; simp only [] at h; simp at h
    | ok t =>
      cases hu : a.subscript "url" with
      | error e => rw [ht, hu] at h; simp only [] at h; simp at h
      | ok u =>
        rw [ht, hu] at h
        simp only [] at h
        cases hr : (processArticles env rest).1 with
        | error e => rw [hr] at h; simp only [] at h; simp at h
        | ok entries =>
          rw [hr] at h
          simp only [] at h
          obtain ⟨h1, h2⟩ := ih entries hr
          cases hsum : (summarize_article env (pyStr u)).1 with
          | none =>
            rw [hsum] at h
            simp only [] at h
            simp at h
            subst es
            refine ⟨?_, ?_⟩
            · rw [List.filterMap_cons, entryOf_eq env a t u ht hu, hsum]
              exact h1
            · simp [urlOf, hu, h2]
          | some s =>
            rw [hsum] at h
            simp only [] at h
            by_cases hse : s.isEmpty
            · simp [hse] at h
              subst es
              refine ⟨?_, ?_⟩
              · rw [List.filterMap_cons, entryOf_eq env a t u ht hu, hsum]
                simp only [hse, if_true]
                exact h1
              · simp [urlOf, hu, h2]
            · simp [hse] at h
              subst es
              refine ⟨?_, ?_⟩
              · rw [List.filterMap_cons, entryOf_eq env a t u ht hu, hsum, h1]
                simp [hse]
              · simp [urlOf, hu, h2]

theorem main_sends (env : Env) (resp : HttpResult) :
    (main env resp).2.sendCalls.length ≤ 1 ∧
      ∀ es ∈ (main env resp).2.sendCalls,
        es ≠ [] ∧ ∃ articles, (processArticles env articles).1 = .ok es := by
  unfold main
  cases hf : (fetch_news NEWS_TOPIC MAX_ARTICLES env.gnewsApiKey resp).2 with
  | error e => simp
  | ok aj =>
    by_cases htr : aj.truthy = false
    · simp [htr]
    · simp only [htr, if_false]
      cases hi : pyIter aj with
      | error e => simp
      | ok arts =>
        cases hp : (processArticles env arts).1 with
        | error e => simp [hp]
        | ok sl =>
          by_cases hsl : sl.isEmpty
          · simp [hp, hsl]
          · simp only [hp, hsl, if_false]
            refine ⟨by simp, ?_⟩
            intro es hes
            simp at hes
            subst hes
            exact ⟨by simpa using hsl, arts, hp⟩

theorem fetch_news_recoverable (topic : String) (m : Nat) (key : String)
    (resp : HttpResult) (h : recoverableFetchFailure resp = true) :
    (fetch_news topic m key resp).2 = .ok (.arr []) := by
  cases resp with
  | transportError msg => rfl
  | response status body =>
    unfold recoverableFetchFailure at h
    by_cases hs : 400 ≤ status ∧ status < 600
    · simp [fetch_news, hs]
    · simp [hs] at h
      cases body with
      | notJson raw => simp [fetch_news, hs]
      | json j => simp at h

theorem fetch_news_obj (topic : String) (m : Nat) (key : String) (status : Nat)
    (fields : List (String × Json)) (hs : ¬(400 ≤ status ∧ status < 600)) :
    (fetch_news topic m key (.response status (.json (.obj fields)))).2 =
      .ok ((lookupField fields "articles").getD (.arr [])) := by
  simp [fetch_news, hs, Json.get]

theorem main_ok (env : Env) (resp : HttpResult) (h : respOk resp = true) :
    (main env resp).1 = .ok () := by
  by_cases hrec : recoverableFetchFailure resp = true
  · unfold main
    rw [fetch_news_recoverable _ _ _ _ hrec]
    simp [Json.truthy]
  · cases resp with
    | transportError m => simp [recoverableFetchFailure] at hrec
    | response status body =>
      have hs : ¬(400 ≤ status ∧ status < 600) := by
        intro hcon
        exact hrec (by simp [recoverableFetchFailure, hcon])
      cases body with
      | notJson raw => exact absurd (by simp [recoverableFetchFailure, hs]) hrec
      | json j =>
        unfold respOk at h
        simp [hs] at h
        cases j with
        | null => simp at h
        | bool b => simp at h
        | num n => simp at h
        | str s => simp at h
        | arr elems => simp at h
        | obj fields =>
          try simp only [] at h
          unfold main
          rw [fetch_news_obj _ _ _ _ _ hs]
          cases hl : lookupField fields "articles" with
          | none => simp [Json.truthy]
          | some v =>
            rw [hl] at h
            try simp only [] at h
            cases v with
            | arr elems =>
              by_cases htr : (Json.arr elems).truthy = false
              · simp [htr]
              · have hw : ∀ a ∈ elems, wellFormedArticle a = true := by
                  simpa [List.all_eq_true] using h
                simp only [Option.getD, htr, pyIter,
                  processArticles_wf env elems hw]
                by_cases he : (elems.filterMap (entryOf env)).isEmpty
                · simp [htr, he]
                · simp [htr, he]
            | null => simp [Json.truthy]
            | bool b =>
              simp [Json.truthy] at h
              simp [h, Json.truthy]
            | num n =>
              simp [Json.truthy] at h
              simp [h, Json.truthy]
            | str s =>
              simp [Json.truthy] at h
              simp [h, Json.truthy]
            | obj fs =>
              simp [Json.truthy] at h
              simp [h, Json.truthy]

/-! Claim theorems. -/

/-- C1 counterexample: a successful provider response whose single
article object lacks the title field makes main terminate with an
uncaught KeyError instead of completing normally. -/
theorem claim_c1_counterexample :
    main envC respNoTitle = (.error (.keyError "title"), ⟨[], []⟩) := rfl

/-- C1 (amended): main completes with a normal successful exit status
and no uncaught exception for every environment and every provider
response in respOk — recoverable fetch failures, and JSON object
bodies whose articles value is absent, falsy, or an array of objects
that all carry title and url fields.  Outside respOk (an article
object lacking title or url, or a body that is valid JSON but not an
object) an uncaught exception crosses the stage boundary and ends the
run. -/
theorem claim_c1 (env : Env) (resp : HttpResult) (h : respOk resp = true) :
    (main env resp).1 = .ok () :=
  main_ok env resp h

/-- C1 witness. -/
theorem claim_c1_witness : (main envS respS).1 = .ok () :=
  claim_c1 envS respS rfl

/-- C2: when the extracted text is shorter than 250 characters,
summarize_article returns none without invoking the model call; when
the text has at least 250 characters and the client is configured, the
model call is made. -/
theorem claim_c2 (env : Env) (u t : String) (h : env.scrape u = .ok t) :
    (t.length < 250 → summarize_article env u = (none, false)) ∧
    (250 ≤ t.length → env.clientPresent = true → (summarize_article env u).2 = true) := by
  unfold summarize_article
  rw [h]
  constructor
  · intro hl
    simp [hl]
  · intro hl hc
    have hnl : ¬t.length < 250 := by omega
    simp [hnl, hc]
    cases env.llm t <;> simp

/-- C2 witness: a nine character body is skipped without a model call;
a 250 character body with a configured client triggers the call. -/
theorem claim_c2_witness :
    summarize_article envShort "u" = (none, false) ∧
      (summarize_article envS "u").2 = true :=
  ⟨(claim_c2 envShort "u" "too short" rfl).1 (by decide),
   (claim_c2 envS "u" longText rfl).2 (by simp [longText_length]) rfl⟩

/-- C3 counterexample: a 200 response whose body is valid JSON but not
an object (here an array) makes fetch_news raise an uncaught
AttributeError instead of returning the empty sequence. -/
theorem claim_c3_counterexample :
    (fetch_news NEWS_TOPIC MAX_ARTICLES "apikey" (.response 200 (.json (.arr [])))).2 =
      .error (.attributeError "object has no attribute get") := rfl

/-- C3 (amended): for transport errors, HTTPError statuses (400 to
599) and bodies that do not parse as JSON, fetch_news returns the
empty sequence and raises nothing; but a body that is valid JSON and
not a JSON object raises an uncaught AttributeError to the caller. -/
theorem claim_c3 (topic : String) (m : Nat) (key : String) (resp : HttpResult)
    (h : recoverableFetchFailure resp = true) :
    (fetch_news topic m key resp).2 = .ok (.arr []) :=
  fetch_news_recoverable topic m key resp h

/-- C3 witness. -/
theorem claim_c3_witness :
    (fetch_news NEWS_TOPIC MAX_ARTICLES "apikey" (.transportError "unreachable")).2 =
      .ok (.arr []) :=
  claim_c3 NEWS_TOPIC MAX_ARTICLES "apikey" (.transportError "unreachable") rfl

/-- C4: a run whose fetch yields zero articles exits normally invoking
neither Summarizer nor Sender; a run whose summarization loop
completes with zero surviving entries exits normally without invoking
the Sender; and in every run send_email is invoked at most once and
only with a non-empty entry list. -/
theorem claim_c4 (env : Env) (resp : HttpResult) :
    (∀ fetched, (fetch_news NEWS_TOPIC MAX_ARTICLES env.gnewsApiKey resp).2 = .ok fetched →
      fetched.truthy = false → main env resp = (.ok (), ⟨[], []⟩)) ∧
    (∀ fetched articleList,
      (fetch_news NEWS_TOPIC MAX_ARTICLES env.gnewsApiKey resp).2 = .ok fetched →
      fetched.truthy = true → pyIter fetched = .ok articleList →
      (processArticles env articleList).1 = .ok [] →
      main env resp = (.ok (), ⟨(processArticles env articleList).2, []⟩)) ∧
    ((main env resp).2.sendCalls.length ≤ 1 ∧
      ∀ es ∈ (main env resp).2.sendCalls, es ≠ []) := by
  refine ⟨?_, ?_, (main_sends env resp).1,
    fun es hes => ((main_sends env resp).2 es hes).1⟩
  · intro fetched hf htr
    unfold main
    rw [hf]
    simp [htr]
  · intro fetched articleList hf htr hi hp
    unfold main
    rw [hf]
    simp [htr, hi, hp]

/-- C4 witness: a transport failure yields zero articles and a normal
exit with no Summarizer and no Sender invocation. -/
theorem claim_c4_witness : main envC (.transportError "down") = (.ok (), ⟨[], []⟩) :=
  (claim_c4 envC (.transportError "down")).1 (.arr []) rfl rfl

/-- C5: the rendered plain-text and HTML bodies are the fixed header
(and footer) around the concatenation, in input order, of one
rendering per entry, each rendering splicing that entry title, summary
and url exactly once; and the entry list any run hands the Sender is
the provider-ordered article list filtered to the successfully
summarized ones — no re-sorting anywhere. -/
theorem claim_c5 :
    (∀ entries, (send_email entries).textBody =
        "Here is your daily news summary:\n\n" ++ concatMap textEntryLine entries) ∧
    (∀ entries, (send_email entries).htmlBody =
        "<html><body><h2>Here is your daily news summary:</h2><ul>" ++
          concatMap htmlEntryLine entries ++ "</ul></body></html>") ∧
    (∀ env articleList es, (processArticles env articleList).1 = .ok es →
      es = articleList.filterMap (entryOf env)) :=
  ⟨send_email_textBody, send_email_htmlBody,
   fun env l es h => (processArticles_ok env l es h).1⟩

set_option maxRecDepth 8000 in
/-- C5 witness. -/
theorem claim_c5_witness :
    (send_email [entS]).textBody =
      "Here is your daily news summary:\n\n" ++ concatMap textEntryLine [entS] ∧
    [entS] = [artS].filterMap (entryOf envS) :=
  ⟨claim_c5.1 [entS], claim_c5.2.2 envS [artS] [entS] (by rfl)⟩

/-- C6: the subject line is exactly the fixed text with the entry
count interpolated. -/
theorem claim_c6 (entries : List DigestEntry) :
    (send_email entries).subject =
      "Your Daily AI News Update (" ++ toString entries.length ++ " stories)" := rfl

/-- C7: every entry the summarization loop ever appends — hence every
entry the Sender receives — has a non-empty summary obtained from the
model on an extracted body of at least 250 characters. -/
theorem claim_c7 (env : Env) (articleList : List Json) (es : List DigestEntry)
    (h : (processArticles env articleList).1 = .ok es) :
    ∀ e ∈ es, e.summary ≠ "" ∧
      ∃ t, env.scrape e.url = .ok t ∧ 250 ≤ t.length ∧
        env.llm t = .ok (some e.summary) := by
  intro e he
  have h1 := (processArticles_ok env articleList es h).1
  subst h1
  rw [List.mem_filterMap] at he
  obtain ⟨a, _, hea⟩ := he
  obtain ⟨hne, hsum⟩ := entryOf_some env a e hea
  refine ⟨?_, ?_⟩
  · intro h0
    rw [h0] at hne
    exact absurd hne (by decide)
  · obtain ⟨t, hsc, hlen, _, hllm⟩ := summarize_eq_some env e.url e.summary hsum
    exact ⟨t, hsc, hlen, hllm⟩

set_option maxRecDepth 8000 in
/-- C7 witness. -/
theorem claim_c7_witness :
    entS.summary ≠ "" ∧ ∃ t, envS.scrape entS.url = .ok t ∧ 250 ≤ t.length ∧
      envS.llm t = .ok (some entS.summary) :=
  claim_c7 envS [artS] [entS] (by rfl) entS (by simp)

/-- C8: with the model client absent every summarize_article call
returns none without attempting a model call, the Sender is never
invoked in any run, and on respOk responses the run still exits
normally — the missing client is a silent per-article skip, never a
startup-fatal or process-terminating condition. -/
theorem claim_c8 (env : Env) (h : env.clientPresent = false) :
    (∀ u, summarize_article env u = (none, false)) ∧
    (∀ resp, (main env resp).2.sendCalls = []) ∧
    (∀ resp, respOk resp = true → (main env resp).1 = .ok ()) := by
  refine ⟨summarize_noclient env h, ?_, fun resp hr => main_ok env resp hr⟩
  intro resp
  by_contra hne
  obtain ⟨es, hes⟩ := List.exists_mem_of_ne_nil _ hne
  obtain ⟨hnempty, articleList, hp⟩ := (main_sends env resp).2 es hes
  have hfm : es = articleList.filterMap (entryOf env) :=
    (processArticles_ok env articleList es hp).1
  rw [List.filterMap_eq_nil_iff.mpr (fun a _ => entryOf_noclient env h a)] at hfm
  exact hnempty hfm

/-- C8 witness. -/
theorem claim_c8_witness :
    summarize_article envC "u" = (none, false) ∧
      (main envC (.transportError "down")).2.sendCalls = [] :=
  ⟨(claim_c8 envC rfl).1 "u", (claim_c8 envC rfl).2.1 (.transportError "down")⟩

/-- C9: fetch_news performs no local truncation — max_articles enters
only the request URL query string, the response handling is
independent of it, a successful JSON object response yields the entire
articles array whatever max_articles was, and the summarization loop
visits every returned article. -/
theorem claim_c9 :
    (∀ topic m key resp, (fetch_news topic m key resp).1 =
        "https://gnews.io/api/v4/search?" ++ "q=" ++ topic ++ "&" ++ "max=" ++
          toString m ++ "&" ++ "lang=en&" ++ "apikey=" ++ key) ∧
    (∀ topic m1 m2 key resp,
      (fetch_news topic m1 key resp).2 = (fetch_news topic m2 key resp).2) ∧
    (∀ topic m key status fields elems, ¬(400 ≤ status ∧ status < 600) →
      lookupField fields "articles" = some (.arr elems) →
      (fetch_news topic m key (.response status (.json (.obj fields)))).2 =
        .ok (.arr elems)) ∧
    (∀ env articleList es, (processArticles env articleList).1 = .ok es →
      (processArticles env articleList).2 = articleList.map urlOf) := by
  refine ⟨fun _ _ _ _ => rfl, fun _ _ _ _ _ => rfl, ?_,
    fun env l es h => (processArticles_ok env l es h).2⟩
  intro topic m key status fields elems hs hl
  rw [fetch_news_obj topic m key status fields hs, hl]
  rfl

/-- C9 witness: a provider response with two articles and max_articles
one passes both articles through untruncated. -/
theorem claim_c9_witness :
    (fetch_news NEWS_TOPIC 1 "apikey"
        (.response 200 (.json (.obj [("articles", .arr [artS, artS])])))).2 =
      .ok (.arr [artS, artS]) :=
  claim_c9.2.2.1 NEWS_TOPIC 1 "apikey" 200 [("articles", .arr [artS, artS])]
    [artS, artS] (by decide) rfl

/-- C10: send_email splices each entry title, summary and url into the
HTML body verbatim, with no HTML escaping anywhere — whatever
metacharacters or markup they contain appears as raw markup in the
HTML alternative part. -/
theorem claim_c10 (entries : List DigestEntry) (e : DigestEntry) (h : e ∈ entries) :
    (∃ l r, (send_email entries).htmlBody = l ++ (e.title ++ r)) ∧
    (∃ l r, (send_email entries).htmlBody = l ++ (e.summary ++ r)) ∧
    (∃ l r, (send_email entries).htmlBody = l ++ (e.url ++ r)) := by
  obtain ⟨l1, l2, rfl⟩ := List.append_of_mem h
  have hb1 : (send_email (l1 ++ e :: l2)).htmlBody =
      ("<html><body><h2>Here is your daily news summary:</h2><ul>" ++
          concatMap htmlEntryLine l1 ++ "<li>" ++ "<strong>") ++
        (e.title ++ ("</strong><br>" ++ "<p>" ++ e.summary ++ "</p>" ++ "<a href=" ++
          singleQuote ++ e.url ++ singleQuote ++ ">Read more</a>" ++ "</li><br>" ++
          concatMap htmlEntryLine l2 ++ "</ul></body></html>")) := by
    rw [send_email_htmlBody, concatMap_append]
    simp [concatMap, htmlEntryLine, String.append_assoc]
  have hb2 : (send_email (l1 ++ e :: l2)).htmlBody =
      ("<html><body><h2>Here is your daily news summary:</h2><ul>" ++
          concatMap htmlEntryLine l1 ++ "<li>" ++ "<strong>" ++ e.title ++
          "</strong><br>" ++ "<p>") ++
        (e.summary ++ ("</p>" ++ "<a href=" ++ singleQuote ++ e.url ++ singleQuote ++
          ">Read more</a>" ++ "</li><br>" ++ concatMap htmlEntryLine l2 ++
          "</ul></body></html>")) := by
    rw [send_email_htmlBody, concatMap_append]
    simp [concatMap, htmlEntryLine, String.append_assoc]
  have hb3 : (send_email (l1 ++ e :: l2)).htmlBody =
      ("<html><body><h2>Here is your daily news summary:</h2><ul>" ++
          concatMap htmlEntryLine l1 ++ "<li>" ++ "<strong>" ++ e.title ++
          "</strong><br>" ++ "<p>" ++ e.summary ++ "</p>" ++ "<a href=" ++
          singleQuote) ++
        (e.url ++ (singleQuote ++ ">Read more</a>" ++ "</li><br>" ++
          concatMap htmlEntryLine l2 ++ "</ul></body></html>")) := by
    rw [send_email_htmlBody, concatMap_append]
    simp [concatMap, htmlEntryLine, String.append_assoc]
  exact ⟨⟨_, _, hb1⟩, ⟨_, _, hb2⟩, ⟨_, _, hb3⟩⟩

/-- C10 witness: script markup in the title reaches the HTML body
raw. -/
theorem claim_c10_witness :
    ∃ l r, (send_email [entX]).htmlBody = l ++ ("<script>alert(1)</script>" ++ r) :=
  (claim_c10 [entX] entX (by simp)).1

end NewsDigest
